import Mathlib

/-!
Shallow embedding of the asset-generation scripts of the shopping-list-app
repository (`scripts/generate_icon.py`, `scripts/generate_feature_graphic.py`,
`scripts/generate_mipmaps.py`).

Images are modelled as the tree of raster operations that built them
(creation, draw calls, alpha compositing, paste, resize, mode conversion);
PNG encoding is deterministic, so two stored images have byte-identical
encodings iff the `Img` values are equal.  The filesystem is a finite map
from paths to file data together with a set of existing directories; a file
write requires its directory to exist (`os.makedirs` adds directories).
Each script becomes a pure function `FS → Except (Err × FS) FS`; an error
result carries the filesystem state at the moment the unhandled exception
was raised.  Python `int()` truncation of the (exactly representable)
arithmetic in the gradient loops is modelled over `ℚ`.
-/

set_option maxRecDepth 8000

/-- Truncation toward zero, Python's `int()` on a numeric expression. -/
def pyInt (q : ℚ) : Int := if q < 0 then ⌈q⌉ else ⌊q⌋

/-- An RGBA color; PIL 3-tuples carry implicit alpha 255. -/
structure Color where
  r : Int
  g : Int
  b : Int
  a : Int
deriving DecidableEq, Repr

/-- Build a color from a PIL 3-tuple `(r, g, b)`. -/
def rgb (r g b : Int) : Color := ⟨r, g, b, 255⟩

/-- Build a color from a PIL 4-tuple `(r, g, b, a)`. -/
def rgba (r g b a : Int) : Color := ⟨r, g, b, a⟩

/-- A path: the directory it lives in and the file name. -/
structure FPath where
  dir : String
  name : String
deriving DecidableEq, Repr

/-- A font value as produced by `ImageFont`: either a truetype font loaded
from a path at a pixel size, or the library's built-in default font. -/
inductive Font where
  | truetype (path : FPath) (size : Nat)
  | defaultFont
deriving DecidableEq, Repr

/-- The resampling filters used by the scripts (only LANCZOS appears). -/
inductive Resample where
  | lanczos
deriving DecidableEq, Repr

/-- One `ImageDraw` call, with its literal arguments. -/
inductive DrawOp where
  | line (pts : List (Int × Int)) (fill : Color) (width : Nat)
  | ellipse (x0 y0 x1 y1 : Int) (fill : Color)
  | polygon (pts : List (Int × Int)) (fill : Color)
  | rectangle (x0 y0 x1 y1 : Int) (fill : Color)
  | roundedRect (x0 y0 x1 y1 radius : Int) (fill : Option Color)
      (outline : Option Color) (width : Nat)
  | text (x y : Int) (s : String) (fill : Color) (font : Font)
deriving DecidableEq, Repr

/-- An image: the tree of raster operations that produced its pixel buffer. -/
inductive Img where
  | new (mode : String) (w h : Nat) (c : Color)
  | drawn (base : Img) (op : DrawOp)
  | composite (a b : Img)
  | pasted (base : Img) (icon : Img) (x y : Int) (withMask : Bool)
  | resized (src : Img) (w h : Nat) (f : Resample)
  | converted (src : Img) (mode : String)
deriving DecidableEq, Repr

/-- Pixel width of an image. -/
def Img.width : Img → Nat
  | .new _ w _ _ => w
  | .drawn base _ => base.width
  | .composite a _ => a.width
  | .pasted base _ _ _ _ => base.width
  | .resized _ w _ _ => w
  | .converted src _ => src.width

/-- Pixel height of an image. -/
def Img.height : Img → Nat
  | .new _ _ h _ => h
  | .drawn base _ => base.height
  | .composite a _ => a.height
  | .pasted base _ _ _ _ => base.height
  | .resized _ _ h _ => h
  | .converted src _ => src.height

/-- Mode of an image (`"RGBA"` throughout these scripts). -/
def Img.mode : Img → String
  | .new m _ _ _ => m
  | .drawn base _ => base.mode
  | .composite a _ => a.mode
  | .pasted base _ _ _ _ => base.mode
  | .resized src _ _ _ => src.mode
  | .converted _ m => m

/-- `img.resize((w, h), filter)`. -/
def Img.resize (i : Img) (w h : Nat) (f : Resample) : Img := .resized i w h f

/-- `img.convert(mode)`. -/
def Img.convert (i : Img) (m : String) : Img := .converted i m

/-- `ImageDraw.Draw(img)` followed by one draw call. -/
def Img.draw (i : Img) (op : DrawOp) : Img := .drawn i op

/-- A Python `for` loop issuing one draw call per element. -/
def drawFold (i : Img) (l : List α) (f : α → DrawOp) : Img :=
  l.foldl (fun im x => im.draw (f x)) i

/-- Contents of a file in the model: a stored PNG encoding of an image,
a font file, or other raw data. -/
inductive FileData where
  | png (i : Img)
  | fontFile
  | raw
deriving DecidableEq, Repr

/-- The errors the scripts can die with. -/
inductive Err where
  | fileNotFound
  | badImage
  | dirNotFound
deriving DecidableEq, Repr

/-- Filesystem state: files (path to contents) and existing directories. -/
structure FS where
  files : List (FPath × FileData)
  dirs : List String
deriving DecidableEq, Repr

/-- Contents of the file at `p`, if it exists. -/
def FS.readFile (fs : FS) (p : FPath) : Option FileData :=
  (fs.files.find? (fun pr => pr.1 = p)).map (fun pr => pr.2)

/-- `os.path.exists` on a file path. -/
def FS.fileExists (fs : FS) (p : FPath) : Bool :=
  (fs.readFile p).isSome

/-- Unchecked overwrite of a file: the new entry is inserted at the front,
and `readFile` reads the newest entry for a path. -/
def FS.put (fs : FS) (p : FPath) (d : FileData) : FS :=
  ⟨(p, d) :: fs.files, fs.dirs⟩

/-- `os.makedirs(d, exist_ok=True)`. -/
def FS.makedirs (fs : FS) (d : String) : FS :=
  if d ∈ fs.dirs then fs else ⟨fs.files, d :: fs.dirs⟩

/-- `img.save(path)`: fails with an unhandled error when the directory the
path points into does not exist; otherwise overwrites the file. -/
def FS.writeFile (fs : FS) (p : FPath) (d : FileData) : Except (Err × FS) FS :=
  if p.dir ∈ fs.dirs then .ok (fs.put p d) else .error (.dirNotFound, fs)

/-- A well-formed filesystem: every file lives in an existing directory. -/
def FS.WF (fs : FS) : Prop := ∀ pr ∈ fs.files, pr.1.dir ∈ fs.dirs

/-- `Image.open(path)`: unhandled error when the file is missing or is not
a decodable image. -/
def openImage (fs : FS) (p : FPath) : Except (Err × FS) Img :=
  match fs.readFile p with
  | some (.png i) => .ok i
  | some _ => .error (.badImage, fs)
  | none => .error (.fileNotFound, fs)

/-- The assets directory `scripts/../assets`. -/
def assetsDir : String := "assets"

/-- `scripts/../assets/app-icon-512.png`: written by the icon generator,
read by the feature-graphic and mipmap scripts. -/
def iconPngPath : FPath := ⟨assetsDir, "app-icon-512.png"⟩

/-- `scripts/../assets/feature-graphic.png`. -/
def featurePngPath : FPath := ⟨assetsDir, "feature-graphic.png"⟩

/-- `scripts/../android/app/src/main/res`. -/
def resDir : String := "android/app/src/main/res"

/-- The res subdirectory for one mipmap density folder. -/
def mipmapDir (folder : String) : String := resDir ++ "/" ++ folder

/-- The `sizes` dict of `generate_mipmaps.py` (insertion order). -/
def sizes : List (String × Nat) :=
  [("mipmap-mdpi", 48), ("mipmap-hdpi", 72), ("mipmap-xhdpi", 96),
   ("mipmap-xxhdpi", 144), ("mipmap-xxxhdpi", 192)]

/-! ## `generate_icon.py` -/

/-- `int(30 * (y / SIZE))`: alpha of row `y` of the icon's gradient layer. -/
def iconGradAlpha (y : Nat) : Int := pyInt (30 * ((y : ℚ) / 512))

/-- Lines 21-25: the gradient overlay canvas, one horizontal line per row. -/
def iconGradient : Img :=
  drawFold (Img.new "RGBA" 512 512 (rgba 0 0 0 0)) (List.range 512)
    (fun y => .line [(0, (y : Int)), (512, (y : Int))] (rgba 0 0 0 (iconGradAlpha y)) 0)

/-- `white = (255, 255, 255, 245)` of `generate_icon.py`. -/
def iconWhite : Color := rgba 255 255 255 245

/-- Lines 13-70: the first canvas (`img`), drawn and then discarded. -/
def iconImgFirstPass : Img :=
  let img := Img.new "RGBA" 512 512 (rgba 0 0 0 0)
  let img := img.draw (.roundedRect 0 0 511 511 100 (some (rgb 76 175 80)) none 1)
  let img := Img.composite img iconGradient
  let img := img.draw (.line [(85, 145), (160, 145)] iconWhite 16)
  let img := img.draw (.ellipse 78 138 92 152 iconWhite)
  let img := img.draw (.polygon [(130, 155), (410, 155), (375, 340), (165, 340)] iconWhite)
  let img := img.draw (.roundedRect 160 320 380 345 20 (some iconWhite) none 1)
  img.draw (.rectangle 130 155 410 169 iconWhite)

/-- `row_left` for a checklist row at height `iy` (lines 155-156). -/
def iconRowLeft (iy : Int) : ℚ :=
  168 + (198 - 168) * (((iy : ℚ) - 170) / (345 - 170)) + 28

/-- `row_right` for a checklist row at height `iy` (line 157). -/
def iconRowRight (iy : Int) : ℚ :=
  415 - (415 - 385) * (((iy : ℚ) - 170) / (345 - 170)) - 28

/-- One iteration of the checklist loop (lines 152-192): a checked row draws
a filled checkbox, a two-segment checkmark and a gray strikethrough; an
unchecked row draws an outlined checkbox and a dark text line. -/
def iconDrawItem (im : Img) (it : Int × Bool) : Img :=
  let iy := it.1
  let box_x := pyInt (iconRowLeft iy)
  let row_right := pyInt (iconRowRight iy)
  if it.2 then
    ((((im.draw
      (.roundedRect box_x iy (box_x + 26) (iy + 26) 5 (some (rgb 46 125 50)) none 1)).draw
      (.line [(box_x + 5, iy + 13), (box_x + 10, iy + 20)] (rgb 255 255 255) 4)).draw
      (.line [(box_x + 10, iy + 20), (box_x + 22, iy + 6)] (rgb 255 255 255) 4)).draw
      (.line [(box_x + 38, iy + 13), (row_right, iy + 13)] (rgba 180 180 180 200) 7))
  else
    ((im.draw
      (.roundedRect box_x iy (box_x + 26) (iy + 26) 5 none (some (rgb 46 125 50)) 3)).draw
      (.line [(box_x + 38, iy + 13), (row_right, iy + 13)] (rgb 46 125 50) 7))

/-- The `items` list (lines 146-150): `(y, checked)` per checklist row. -/
def iconItems : List (Int × Bool) := [(200, true), (245, true), (290, false)]

/-- Lines 73-193: the second canvas (`img2`), the one that is saved. -/
def iconImg2 : Img :=
  let img2 := Img.new "RGBA" 512 512 (rgba 0 0 0 0)
  let img2 := img2.draw (.roundedRect 0 0 511 511 100 (some (rgb 76 175 80)) none 1)
  let img2 := Img.composite img2 iconGradient
  let img2 := img2.draw (.line [(75, 148), (155, 148)] iconWhite 18)
  let img2 := img2.draw (.ellipse 67 140 83 156 iconWhite)
  let img2 := img2.draw (.line [(148, 148), (175, 170)] iconWhite 18)
  let img2 := img2.draw (.polygon [(168, 170), (415, 170), (385, 345), (198, 345)] iconWhite)
  let img2 := img2.draw (.roundedRect 198 320 385 355 18 (some iconWhite) none 1)
  let img2 := img2.draw (.rectangle 168 170 415 190 iconWhite)
  let img2 := img2.draw (.ellipse 400 162 425 185 iconWhite)
  let img2 := img2.draw (.ellipse 193 363 237 407 iconWhite)
  let img2 := img2.draw (.ellipse 206 376 224 394 (rgb 56 132 58))
  let img2 := img2.draw (.ellipse 346 363 390 407 iconWhite)
  let img2 := img2.draw (.ellipse 359 376 377 394 (rgb 56 132 58))
  let img2 := img2.draw (.line [(215, 345), (215, 363)] iconWhite 10)
  let img2 := img2.draw (.line [(368, 345), (368, 363)] iconWhite 10)
  iconItems.foldl iconDrawItem img2

/-- `generate_icon.py` as a whole: ensure the assets directory exists
(line 8), build both canvases, save only the second one (line 194). -/
def generate_icon (fs : FS) : Except (Err × FS) FS :=
  let fs := fs.makedirs assetsDir
  let _img := iconImgFirstPass
  let img2 := iconImg2
  fs.writeFile iconPngPath (.png img2)

/-- `generate_icon.py` with the discarded first drawing pass (the draws on
the first canvas, lines 13-19 and 27-70) removed; the gradient layer
(lines 21-25) is kept, since the saved canvas composites it in line 82. -/
def generate_icon_noFirstPass (fs : FS) : Except (Err × FS) FS :=
  let fs := fs.makedirs assetsDir
  let img2 := iconImg2
  fs.writeFile iconPngPath (.png img2)

/-! ## `generate_feature_graphic.py` -/

/-- `int(85 - 30 * progress)`: red channel of background row `y`. -/
def featGradR (y : Nat) : Int := pyInt (85 - 30 * ((y : ℚ) / 500))

/-- `int(195 - 50 * progress)`: green channel of background row `y`. -/
def featGradG (y : Nat) : Int := pyInt (195 - 50 * ((y : ℚ) / 500))

/-- `int(90 - 30 * progress)`: blue channel of background row `y`. -/
def featGradB (y : Nat) : Int := pyInt (90 - 30 * ((y : ℚ) / 500))

/-- Lines 9-18: the gradient background, one horizontal line per row. -/
def featureBackground : Img :=
  drawFold (Img.new "RGBA" 1024 500 (rgba 0 0 0 0)) (List.range 500)
    (fun y => .line [(0, (y : Int)), (1024, (y : Int))]
      (rgb (featGradR y) (featGradG y) (featGradB y)) 0)

/-- `int(25 * (1 - radius / 300))`: alpha of the glow ring at `radius`. -/
def glowAlpha (radius : Nat) : Int := pyInt (25 * (1 - (radius : ℚ) / 300))

/-- `range(300, 0, -1)`: the radii 300, 299, ..., 1. -/
def glowRadii : List Nat := (List.range 300).map (fun i => 300 - i)

/-- Lines 21-29: the radial glow layer around `(WIDTH // 3, HEIGHT // 2)`. -/
def glowLayer : Img :=
  drawFold (Img.new "RGBA" 1024 500 (rgba 0 0 0 0)) glowRadii
    (fun radius => .ellipse (341 - (radius : Int)) (250 - (radius : Int))
      (341 + (radius : Int)) (250 + (radius : Int)) (rgba 255 255 255 (glowAlpha radius)))

/-- Line 30: background with the glow composited on top. -/
def featureBase : Img := Img.composite featureBackground glowLayer

/-- Lines 41-49: the icon drop shadow layer (`icon_x = 644`, `icon_y = 110`). -/
def featureShadow : Img :=
  (Img.new "RGBA" 1024 500 (rgba 0 0 0 0)).draw
    (.roundedRect 650 116 930 396 55 (some (rgba 0 0 0 40)) none 1)

/-- Lines 36-53 given an opened icon: convert, resize to 280x280 LANCZOS,
composite the shadow, paste the icon at `(644, 110)` with itself as mask. -/
def featureWithIcon (base : Img) (rawIcon : Img) : Img :=
  let icon := (rawIcon.convert "RGBA").resize 280 280 .lanczos
  let img := Img.composite base featureShadow
  Img.pasted img icon 644 110 true

/-- Lines 34-53: the conditional icon-compositing step. -/
def featureIconStep (fs : FS) (img : Img) : Except (Err × FS) Img :=
  if fs.fileExists iconPngPath then
    match openImage fs iconPngPath with
    | .ok raw => .ok (featureWithIcon img raw)
    | .error e => .error e
  else .ok img

/-- `font_paths` (lines 66-70). -/
def font_paths : List FPath :=
  [⟨"C:/Windows/Fonts", "segoeui.ttf"⟩, ⟨"C:/Windows/Fonts", "arial.ttf"⟩,
   ⟨"C:/Windows/Fonts", "calibri.ttf"⟩]

/-- `font_bold_paths` (lines 71-75). -/
def font_bold_paths : List FPath :=
  [⟨"C:/Windows/Fonts", "segoeuib.ttf"⟩, ⟨"C:/Windows/Fonts", "arialbd.ttf"⟩,
   ⟨"C:/Windows/Fonts", "calibrib.ttf"⟩]

/-- `font_light_paths` (lines 76-80). -/
def font_light_paths : List FPath :=
  [⟨"C:/Windows/Fonts", "segoeuil.ttf"⟩, ⟨"C:/Windows/Fonts", "calibril.ttf"⟩,
   ⟨"C:/Windows/Fonts", "arial.ttf"⟩]

/-- One `for fp in paths: if os.path.exists(fp): ...; break` loop: the first
path in the list that exists as a file, if any. -/
def findFontFile (fs : FS) : List FPath → Option FPath
  | [] => none
  | fp :: rest => if fs.fileExists fp then some fp else findFontFile fs rest

/-- A font-selection loop followed by its `if not font: load_default()`
fallback (lines 82-102). -/
def pickFont (fs : FS) (paths : List FPath) (size : Nat) : Font :=
  match findFontFile fs paths with
  | some fp => .truetype fp size
  | none => .defaultFont

/-- The three fonts the script ends up with: title (bold list, 62),
subtitle (regular list, 30), tagline (light list, 24). -/
def featureFonts (fs : FS) : Font × Font × Font :=
  (pickFont fs font_bold_paths 62, pickFont fs font_paths 30,
   pickFont fs font_light_paths 24)

/-- Lines 104-128: the two title lines, the divider, tagline, sub-tagline. -/
def featureText (im : Img) (ft fsub ftag : Font) : Img :=
  let im := im.draw (.text 80 130 "Family" (rgb 255 255 255) ft)
  let im := im.draw (.text 80 200 "Shopping List" (rgb 255 255 255) ft)
  let im := im.draw (.line [(80, 290), (160, 290)] (rgba 255 255 255 180) 3)
  let im := im.draw (.text 80 310 "Shop together. Stay organized."
    (rgba 255 255 255 220) fsub)
  im.draw (.text 80 350 "Real-time sync  |  Budget tracking  |  Family groups"
    (rgba 255 255 255 160) ftag)

/-- `generate_feature_graphic.py` as a whole. -/
def generate_feature_graphic (fs : FS) : Except (Err × FS) FS :=
  match featureIconStep fs featureBase with
  | .error e => .error e
  | .ok img =>
    let f := featureFonts fs
    let img := featureText img f.1 f.2.1 f.2.2
    fs.writeFile featurePngPath (.png img)

/-- `generate_feature_graphic.py` with the icon-compositing step
(lines 34-53) removed entirely. -/
def generate_feature_graphic_noIconStep (fs : FS) : Except (Err × FS) FS :=
  let f := featureFonts fs
  let img := featureText featureBase f.1 f.2.1 f.2.2
  fs.writeFile featurePngPath (.png img)

/-- Whether some `paste` in the operation tree pastes exactly image `t`. -/
def Img.hasPasteOf : Img → Img → Bool
  | .new _ _ _ _, _ => false
  | .drawn base _, t => base.hasPasteOf t
  | .composite a b, t => a.hasPasteOf t || b.hasPasteOf t
  | .pasted base icon _ _ _, t => decide (icon = t) || base.hasPasteOf t
  | .resized src _ _ _, t => src.hasPasteOf t
  | .converted src _, t => src.hasPasteOf t

/-! ## `generate_mipmaps.py` -/

/-- One iteration of the loop in lines 19-27: make the density directory,
resize with LANCZOS, save `ic_launcher.png` then `ic_launcher_round.png`. -/
def mipStep (img : Img) (fs : FS) (entry : String × Nat) : Except (Err × FS) FS :=
  let out_dir := mipmapDir entry.1
  let fs := fs.makedirs out_dir
  let resized := img.resize entry.2 entry.2 .lanczos
  match fs.writeFile ⟨out_dir, "ic_launcher.png"⟩ (.png resized) with
  | .error e => .error e
  | .ok fs2 => fs2.writeFile ⟨out_dir, "ic_launcher_round.png"⟩ (.png resized)

/-- The `for folder, size in sizes.items()` loop of lines 19-27, stopping
at the first unhandled error. -/
def mipLoop (img : Img) (fs : FS) : List (String × Nat) → Except (Err × FS) FS
  | [] => .ok fs
  | e :: rest =>
    match mipStep img fs e with
    | .error er => .error er
    | .ok fs2 => mipLoop img fs2 rest

/-- `generate_mipmaps.py` as a whole: open the source icon (dying if it is
absent), convert to RGBA, then run the per-density loop. -/
def generate_mipmaps (fs : FS) : Except (Err × FS) FS :=
  match openImage fs iconPngPath with
  | .error e => .error e
  | .ok raw => mipLoop (raw.convert "RGBA") fs sizes

/-! ## Run environment (for determinism claims) -/

/-- Run-dependent data a script could in principle observe: a clock and a
random seed.  The scripts never consult either. -/
structure RunEnv where
  sysTime : Nat
  randSeed : Nat
deriving DecidableEq, Repr

/-- A run of `generate_icon.py` in environment `env`. -/
def run_generate_icon (_env : RunEnv) (fs : FS) : Except (Err × FS) FS :=
  generate_icon fs

/-- A run of `generate_feature_graphic.py` in environment `env`. -/
def run_generate_feature_graphic (_env : RunEnv) (fs : FS) : Except (Err × FS) FS :=
  generate_feature_graphic fs

/-- A run of `generate_mipmaps.py` in environment `env`. -/
def run_generate_mipmaps (_env : RunEnv) (fs : FS) : Except (Err × FS) FS :=
  generate_mipmaps fs

/-! ## Helper lemmas -/

theorem drawFold_width (i : Img) (l : List α) (f : α → DrawOp) :
    (drawFold i l f).width = i.width := by
  induction l generalizing i with
  | nil => rfl
  | cons x xs ih => simpa [drawFold, Img.draw] using ih (i.draw (f x))

theorem drawFold_height (i : Img) (l : List α) (f : α → DrawOp) :
    (drawFold i l f).height = i.height := by
  induction l generalizing i with
  | nil => rfl
  | cons x xs ih => simpa [drawFold, Img.draw] using ih (i.draw (f x))

theorem drawFold_mode (i : Img) (l : List α) (f : α → DrawOp) :
    (drawFold i l f).mode = i.mode := by
  induction l generalizing i with
  | nil => rfl
  | cons x xs ih => simpa [drawFold, Img.draw] using ih (i.draw (f x))

theorem iconDrawItem_width (im : Img) (it : Int × Bool) :
    (iconDrawItem im it).width = im.width := by
  unfold iconDrawItem
  split <;> rfl

theorem iconDrawItem_height (im : Img) (it : Int × Bool) :
    (iconDrawItem im it).height = im.height := by
  unfold iconDrawItem
  split <;> rfl

theorem iconDrawItem_mode (im : Img) (it : Int × Bool) :
    (iconDrawItem im it).mode = im.mode := by
  unfold iconDrawItem
  split <;> rfl

theorem foldl_iconDrawItem_width (l : List (Int × Bool)) (im : Img) :
    (l.foldl iconDrawItem im).width = im.width := by
  induction l generalizing im with
  | nil => rfl
  | cons x xs ih => simpa [iconDrawItem_width] using ih (iconDrawItem im x)

theorem foldl_iconDrawItem_height (l : List (Int × Bool)) (im : Img) :
    (l.foldl iconDrawItem im).height = im.height := by
  induction l generalizing im with
  | nil => rfl
  | cons x xs ih => simpa [iconDrawItem_height] using ih (iconDrawItem im x)

theorem foldl_iconDrawItem_mode (l : List (Int × Bool)) (im : Img) :
    (l.foldl iconDrawItem im).mode = im.mode := by
  induction l generalizing im with
  | nil => rfl
  | cons x xs ih => simpa [iconDrawItem_mode] using ih (iconDrawItem im x)

theorem iconImg2_width : iconImg2.width = 512 := by
  simp only [iconImg2]
  rw [foldl_iconDrawItem_width]
  rfl

theorem iconImg2_height : iconImg2.height = 512 := by
  simp only [iconImg2]
  rw [foldl_iconDrawItem_height]
  rfl

theorem iconImg2_mode : iconImg2.mode = "RGBA" := by
  simp only [iconImg2]
  rw [foldl_iconDrawItem_mode]
  rfl

theorem featureBackground_width : featureBackground.width = 1024 := by
  unfold featureBackground
  rw [drawFold_width]
  rfl

theorem featureBackground_height : featureBackground.height = 500 := by
  unfold featureBackground
  rw [drawFold_height]
  rfl

theorem featureBase_width : featureBase.width = 1024 := by
  have h : featureBase.width = featureBackground.width := rfl
  rw [h, featureBackground_width]

theorem featureBase_height : featureBase.height = 500 := by
  have h : featureBase.height = featureBackground.height := rfl
  rw [h, featureBackground_height]

theorem featureText_width (im : Img) (a b c : Font) :
    (featureText im a b c).width = im.width := rfl

theorem featureText_height (im : Img) (a b c : Font) :
    (featureText im a b c).height = im.height := rfl

theorem featureWithIcon_width (base raw : Img) :
    (featureWithIcon base raw).width = base.width := rfl

theorem featureWithIcon_height (base raw : Img) :
    (featureWithIcon base raw).height = base.height := rfl

theorem FS.mem_makedirs_self (fs : FS) (d : String) :
    d ∈ (fs.makedirs d).dirs := by
  unfold FS.makedirs
  split <;> simp_all

theorem FS.dirs_put (fs : FS) (p : FPath) (v : FileData) :
    (fs.put p v).dirs = fs.dirs := rfl

theorem FS.readFile_makedirs (fs : FS) (d : String) (p : FPath) :
    (fs.makedirs d).readFile p = fs.readFile p := by
  unfold FS.makedirs
  split <;> rfl

theorem FS.readFile_put_self (fs : FS) (p : FPath) (v : FileData) :
    (fs.put p v).readFile p = some v := by
  unfold FS.put FS.readFile
  simp [List.find?_cons_of_pos]

theorem FS.readFile_put_other (fs : FS) (p q : FPath) (v : FileData) (h : q ≠ p) :
    (fs.put p v).readFile q = fs.readFile q := by
  unfold FS.put FS.readFile
  have hpq : p ≠ q := fun he => h he.symm
  simp [List.find?_cons, hpq]

theorem FS.writeFile_after_makedirs (fs : FS) (d : String) (n : String) (v : FileData) :
    (fs.makedirs d).writeFile ⟨d, n⟩ v = .ok ((fs.makedirs d).put ⟨d, n⟩ v) := by
  unfold FS.writeFile
  exact if_pos (fs.mem_makedirs_self d)

theorem FS.fileExists_eq_false_of_no_dir (fs : FS) (p : FPath)
    (hwf : fs.WF) (hd : p.dir ∉ fs.dirs) : fs.fileExists p = false := by
  unfold FS.fileExists FS.readFile
  rcases hfind : fs.files.find? (fun pr => pr.1 = p) with _ | pr
  · simp [hfind]
  · have hmem := List.mem_of_find?_eq_some hfind
    have hpred := List.find?_some hfind
    have hp : pr.1 = p := by simpa using hpred
    exact absurd (hp ▸ hwf pr hmem) hd

/-! ## Claim theorems -/

/-- C2: for every pair of runs of the same script under identical filesystem
state, the results (including all output image contents) are identical; no
run-dependent data (clock, random seed) influences any of the three
scripts. -/
theorem claim_C2_determinism (e₁ e₂ : RunEnv) (fs : FS) :
    run_generate_icon e₁ fs = run_generate_icon e₂ fs ∧
    run_generate_feature_graphic e₁ fs = run_generate_feature_graphic e₂ fs ∧
    run_generate_mipmaps e₁ fs = run_generate_mipmaps e₂ fs :=
  ⟨rfl, rfl, rfl⟩

/-- C8: the saved icon depends only on the second canvas; removing the
discarded first drawing pass leaves the script's entire filesystem effect
(hence the output bytes) unchanged. -/
theorem claim_C8_first_pass_discarded (fs : FS) :
    generate_icon fs = generate_icon_noFirstPass fs := rfl

/-- C3: when the source icon is absent, the mipmap script dies with an
unhandled error whose filesystem state is the unchanged input state: no
output file was written and no output directory was created. -/
theorem claim_C3_mipmaps_fail_fast (fs : FS)
    (h : fs.fileExists iconPngPath = false) :
    generate_mipmaps fs = .error (.fileNotFound, fs) := by
  cases hr : fs.readFile iconPngPath with
  | none => simp [generate_mipmaps, openImage, hr]
  | some v =>
    unfold FS.fileExists at h
    rw [hr] at h
    simp at h

/-- Witness for C3 at the empty filesystem. -/
theorem claim_C3_witness :
    FS.fileExists ⟨[], []⟩ iconPngPath = false ∧
    generate_mipmaps ⟨[], []⟩ = .error (.fileNotFound, ⟨[], []⟩) :=
  ⟨rfl, claim_C3_mipmaps_fail_fast ⟨[], []⟩ rfl⟩

/-- C4: every run of the icon generator succeeds, writes the fixed-path PNG
(overwriting whatever was there), the written image is exactly 512x512 in
RGBA mode, and no other file is touched. -/
theorem claim_C4_icon_size (fs : FS) :
    ∃ fs', generate_icon fs = .ok fs' ∧
      fs'.readFile iconPngPath = some (.png iconImg2) ∧
      iconImg2.width = 512 ∧ iconImg2.height = 512 ∧ iconImg2.mode = "RGBA" ∧
      (∀ q, q ≠ iconPngPath → fs'.readFile q = fs.readFile q) := by
  refine ⟨(fs.makedirs assetsDir).put iconPngPath (.png iconImg2), ?_,
    FS.readFile_put_self _ _ _, iconImg2_width, iconImg2_height, iconImg2_mode, ?_⟩
  · exact FS.writeFile_after_makedirs fs assetsDir "app-icon-512.png" (.png iconImg2)
  · intro q hq
    rw [FS.readFile_put_other _ _ _ _ hq, FS.readFile_makedirs]

/-- C9: the icon generator creates its output directory first and therefore
succeeds even on a filesystem without the assets directory, while the
feature-graphic generator performs no directory creation and dies at its
final save with the filesystem unchanged (no output written). -/
theorem claim_C9_makedirs_asymmetry (fs : FS) (hwf : fs.WF)
    (hd : assetsDir ∉ fs.dirs) :
    (∃ fs', generate_icon fs = .ok fs' ∧
      fs'.readFile iconPngPath = some (.png iconImg2)) ∧
    generate_feature_graphic fs = .error (.dirNotFound, fs) := by
  constructor
  · exact ⟨(fs.makedirs assetsDir).put iconPngPath (.png iconImg2),
      FS.writeFile_after_makedirs fs assetsDir "app-icon-512.png" (.png iconImg2),
      FS.readFile_put_self _ _ _⟩
  · have hicon : fs.fileExists iconPngPath = false :=
      fs.fileExists_eq_false_of_no_dir iconPngPath hwf hd
    unfold generate_feature_graphic featureIconStep
    rw [hicon]
    simp only [Bool.false_eq_true, if_false]
    unfold FS.writeFile
    exact if_neg hd

/-- Witness for C9 at the empty filesystem. -/
theorem claim_C9_witness :
    FS.WF ⟨[], []⟩ ∧ assetsDir ∉ (⟨[], []⟩ : FS).dirs ∧
    ((∃ fs', generate_icon ⟨[], []⟩ = .ok fs' ∧
        fs'.readFile iconPngPath = some (.png iconImg2)) ∧
      generate_feature_graphic ⟨[], []⟩ = .error (.dirNotFound, ⟨[], []⟩)) :=
  ⟨fun pr h => absurd h (List.not_mem_nil pr), by simp,
    claim_C9_makedirs_asymmetry ⟨[], []⟩ (fun pr h => absurd h (List.not_mem_nil pr))
      (by simp)⟩

theorem findFontFile_eq_find? (fs : FS) (l : List FPath) :
    findFontFile fs l = l.find? (fun p => fs.fileExists p) := by
  induction l with
  | nil => rfl
  | cons a l ih =>
    unfold findFontFile
    by_cases h : fs.fileExists a = true
    · rw [if_pos h, List.find?_cons_of_pos _ h]
    · rw [if_neg h, ih, List.find?_cons_of_neg _ (by simpa using h)]

/-- C7: each of the three text elements uses the truetype font at the first
existing file of its ordered hardcoded path list, and the built-in default
font when no file of the list exists; font selection is total, so missing
font files never raise an error. -/
theorem claim_C7_font_selection (fs : FS) :
    (featureFonts fs).1 =
      (match font_bold_paths.find? (fun p => fs.fileExists p) with
        | some fp => Font.truetype fp 62
        | none => Font.defaultFont) ∧
    (featureFonts fs).2.1 =
      (match font_paths.find? (fun p => fs.fileExists p) with
        | some fp => Font.truetype fp 30
        | none => Font.defaultFont) ∧
    (featureFonts fs).2.2 =
      (match font_light_paths.find? (fun p => fs.fileExists p) with
        | some fp => Font.truetype fp 24
        | none => Font.defaultFont) := by
  unfold featureFonts pickFont
  rw [findFontFile_eq_find?, findFontFile_eq_find?, findFontFile_eq_find?]
  exact ⟨rfl, rfl, rfl⟩

theorem pyInt_nonneg (q : ℚ) (h0 : 0 ≤ q) : 0 ≤ pyInt q := by
  unfold pyInt
  rw [if_neg (not_lt.mpr h0)]
  exact Int.le_floor.mpr (by exact_mod_cast h0)

theorem pyInt_le (q : ℚ) (hi : Int) (h0 : 0 ≤ q) (hhi : q ≤ (hi : ℚ)) :
    pyInt q ≤ hi := by
  unfold pyInt
  rw [if_neg (not_lt.mpr h0)]
  have h1 : ((⌊q⌋ : Int) : ℚ) ≤ (hi : ℚ) := le_trans (Int.floor_le q) hhi
  exact_mod_cast h1

theorem pyInt_ge (q : ℚ) (lo : Int) (h0 : 0 ≤ q) (hlo : (lo : ℚ) ≤ q) :
    lo ≤ pyInt q := by
  unfold pyInt
  rw [if_neg (not_lt.mpr h0)]
  exact Int.le_floor.mpr hlo

theorem pyInt_lt (q : ℚ) (hi : Int) (h0 : 0 ≤ q) (hhi : q < (hi : ℚ)) :
    pyInt q < hi := by
  unfold pyInt
  rw [if_neg (not_lt.mpr h0)]
  exact Int.floor_lt.mpr hhi

/-- C10: every per-row / per-ring channel value computed in the three
gradient and glow loops lies in the claimed subrange of the valid byte
range 0..255: feature-graphic rows have `r ∈ [55, 85]`, `g ∈ [145, 195]`,
`b ∈ [60, 90]`; glow rings (radius 1..300) have alpha in `[0, 25)`; icon
gradient rows have alpha in `[0, 30)`. -/
theorem claim_C10_channel_ranges :
    (∀ y : Nat, y < 500 →
      (55 ≤ featGradR y ∧ featGradR y ≤ 85) ∧
      (145 ≤ featGradG y ∧ featGradG y ≤ 195) ∧
      (60 ≤ featGradB y ∧ featGradB y ≤ 90)) ∧
    (∀ r : Nat, 0 < r → r ≤ 300 → 0 ≤ glowAlpha r ∧ glowAlpha r < 25) ∧
    (∀ y : Nat, y < 512 → 0 ≤ iconGradAlpha y ∧ iconGradAlpha y < 30) := by
  refine ⟨?_, ?_, ?_⟩
  · intro y hy
    unfold featGradR featGradG featGradB
    have hyq : (y : ℚ) < 500 := by exact_mod_cast hy
    have h0 : (0 : ℚ) ≤ (y : ℚ) / 500 := by positivity
    have h1 : (y : ℚ) / 500 < 1 := by
      rw [div_lt_one (by norm_num : (0 : ℚ) < 500)]
      exact hyq
    refine ⟨⟨?_, ?_⟩, ⟨?_, ?_⟩, ⟨?_, ?_⟩⟩
    · exact pyInt_ge _ 55 (by linarith) (by push_cast; linarith)
    · exact pyInt_le _ 85 (by linarith) (by push_cast; linarith)
    · exact pyInt_ge _ 145 (by linarith) (by push_cast; linarith)
    · exact pyInt_le _ 195 (by linarith) (by push_cast; linarith)
    · exact pyInt_ge _ 60 (by linarith) (by push_cast; linarith)
    · exact pyInt_le _ 90 (by linarith) (by push_cast; linarith)
  · intro r hr0 hr300
    unfold glowAlpha
    have hrq0 : (0 : ℚ) < (r : ℚ) := by exact_mod_cast hr0
    have hrq : (r : ℚ) ≤ 300 := by exact_mod_cast hr300
    have hd0 : 0 < (r : ℚ) / 300 := by positivity
    have hd1 : (r : ℚ) / 300 ≤ 1 := by
      rw [div_le_one (by norm_num : (0 : ℚ) < 300)]
      exact hrq
    constructor
    · exact pyInt_nonneg _ (by linarith)
    · exact pyInt_lt _ 25 (by linarith) (by push_cast; linarith)
  · intro y hy
    unfold iconGradAlpha
    have hyq : (y : ℚ) < 512 := by exact_mod_cast hy
    have h0 : (0 : ℚ) ≤ (y : ℚ) / 512 := by positivity
    have h1 : (y : ℚ) / 512 < 1 := by
      rw [div_lt_one (by norm_num : (0 : ℚ) < 512)]
      exact hyq
    constructor
    · exact pyInt_nonneg _ (by linarith)
    · exact pyInt_lt _ 30 (by linarith) (by push_cast; linarith)

/-- Witness for C10 at rows 0 and 499, ring radius 1, icon row 511. -/
theorem claim_C10_witness :
    ((55 ≤ featGradR 499 ∧ featGradR 499 ≤ 85) ∧
      (145 ≤ featGradG 499 ∧ featGradG 499 ≤ 195) ∧
      (60 ≤ featGradB 499 ∧ featGradB 499 ≤ 90)) ∧
    (0 ≤ glowAlpha 1 ∧ glowAlpha 1 < 25) ∧
    (0 ≤ iconGradAlpha 511 ∧ iconGradAlpha 511 < 30) :=
  ⟨claim_C10_channel_ranges.1 499 (by norm_num),
    claim_C10_channel_ranges.2.1 1 (by norm_num) (by norm_num),
    claim_C10_channel_ranges.2.2 511 (by norm_num)⟩

theorem featureIconStep_ok_width (fs : FS) (b img : Img)
    (h : featureIconStep fs b = .ok img) : img.width = b.width := by
  unfold featureIconStep at h
  by_cases hex : fs.fileExists iconPngPath = true
  · rw [if_pos hex] at h
    cases hopen : openImage fs iconPngPath with
    | ok raw =>
      rw [hopen] at h
      injection h with h
      subst h
      exact featureWithIcon_width b raw
    | error e =>
      rw [hopen] at h
      exact absurd h (by simp)
  · rw [if_neg hex] at h
    injection h with h
    subst h
    rfl

theorem featureIconStep_ok_height (fs : FS) (b img : Img)
    (h : featureIconStep fs b = .ok img) : img.height = b.height := by
  unfold featureIconStep at h
  by_cases hex : fs.fileExists iconPngPath = true
  · rw [if_pos hex] at h
    cases hopen : openImage fs iconPngPath with
    | ok raw =>
      rw [hopen] at h
      injection h with h
      subst h
      exact featureWithIcon_height b raw
    | error e =>
      rw [hopen] at h
      exact absurd h (by simp)
  · rw [if_neg hex] at h
    injection h with h
    subst h
    rfl

/-- C5: every run of the feature-graphic generator that completes has
written the fixed-path PNG, the written image is exactly 1024x500
(whatever the icon or font situation was), and no other file changed. -/
theorem claim_C5_feature_size (fs fs' : FS)
    (h : generate_feature_graphic fs = .ok fs') :
    ∃ i, fs'.readFile featurePngPath = some (.png i) ∧
      i.width = 1024 ∧ i.height = 500 ∧
      ∀ q, q ≠ featurePngPath → fs'.readFile q = fs.readFile q := by
  unfold generate_feature_graphic at h
  cases hstep : featureIconStep fs featureBase with
  | error e =>
    rw [hstep] at h
    exact absurd h (by simp)
  | ok img =>
    rw [hstep] at h
    simp only [FS.writeFile] at h
    split at h
    · injection h with h
      subst h
      refine ⟨_, FS.readFile_put_self _ _ _, ?_, ?_,
        fun q hq => FS.readFile_put_other _ _ _ _ hq⟩
      · rw [featureText_width, featureIconStep_ok_width fs featureBase img hstep,
          featureBase_width]
      · rw [featureText_height, featureIconStep_ok_height fs featureBase img hstep,
          featureBase_height]
    · exact absurd h (by simp)

/-- Witness for C5 at a filesystem with the assets directory but no icon. -/
theorem claim_C5_witness :
    generate_feature_graphic ⟨[], [assetsDir]⟩ =
      .ok (FS.put ⟨[], [assetsDir]⟩ featurePngPath
        (.png (featureText featureBase .defaultFont .defaultFont .defaultFont))) ∧
    ∃ i, (FS.put ⟨[], [assetsDir]⟩ featurePngPath
        (.png (featureText featureBase .defaultFont .defaultFont
          .defaultFont))).readFile featurePngPath = some (.png i) ∧
      i.width = 1024 ∧ i.height = 500 ∧
      ∀ q, q ≠ featurePngPath →
        (FS.put ⟨[], [assetsDir]⟩ featurePngPath
          (.png (featureText featureBase .defaultFont .defaultFont
            .defaultFont))).readFile q = FS.readFile ⟨[], [assetsDir]⟩ q :=
  ⟨rfl, claim_C5_feature_size _ _ rfl⟩

/-- Whether any `paste` operation occurs in the operation tree. -/
def Img.hasPaste : Img → Bool
  | .new _ _ _ _ => false
  | .drawn base _ => base.hasPaste
  | .composite a b => a.hasPaste || b.hasPaste
  | .pasted _ _ _ _ _ => true
  | .resized src _ _ _ => src.hasPaste
  | .converted src _ => src.hasPaste

theorem drawFold_hasPaste (i : Img) (l : List α) (f : α → DrawOp) :
    (drawFold i l f).hasPaste = i.hasPaste := by
  induction l generalizing i with
  | nil => rfl
  | cons x xs ih => simpa [drawFold, Img.draw] using ih (i.draw (f x))

theorem featureBase_hasPaste : featureBase.hasPaste = false := by
  have h : featureBase.hasPaste =
      (featureBackground.hasPaste || glowLayer.hasPaste) := rfl
  rw [h]
  unfold featureBackground glowLayer
  rw [drawFold_hasPaste, drawFold_hasPaste]
  rfl

theorem featureText_hasPaste (im : Img) (a b c : Font) :
    (featureText im a b c).hasPaste = im.hasPaste := rfl

/-- C6: with the assets directory present, a run without the icon file
skips the icon-compositing step entirely (the run equals the script with
that step removed, completes, and its output contains no paste operation),
while a run with the icon file present completes with the icon resized to
280x280 and pasted into the output. -/
theorem claim_C6_icon_optional (fs : FS) (hdir : assetsDir ∈ fs.dirs) :
    (fs.fileExists iconPngPath = false →
      generate_feature_graphic fs = generate_feature_graphic_noIconStep fs ∧
      ∃ fs', generate_feature_graphic fs = .ok fs' ∧
        ∃ i, fs'.readFile featurePngPath = some (.png i) ∧ i.hasPaste = false) ∧
    (∀ p, fs.readFile iconPngPath = some (.png p) →
      ∃ fs', generate_feature_graphic fs = .ok fs' ∧
        ∃ i, fs'.readFile featurePngPath = some (.png i) ∧
          i.hasPasteOf ((p.convert "RGBA").resize 280 280 .lanczos) = true ∧
          ((p.convert "RGBA").resize 280 280 .lanczos).width = 280 ∧
          ((p.convert "RGBA").resize 280 280 .lanczos).height = 280) := by
  constructor
  · intro hicon
    have hstep : featureIconStep fs featureBase = .ok featureBase := by
      unfold featureIconStep
      rw [hicon]
      rfl
    have hwrite : FS.writeFile fs featurePngPath
        (.png (featureText featureBase (featureFonts fs).1 (featureFonts fs).2.1
          (featureFonts fs).2.2)) =
        .ok (fs.put featurePngPath
          (.png (featureText featureBase (featureFonts fs).1 (featureFonts fs).2.1
            (featureFonts fs).2.2))) := by
      unfold FS.writeFile
      rw [if_pos (show featurePngPath.dir ∈ fs.dirs from hdir)]
    constructor
    · unfold generate_feature_graphic generate_feature_graphic_noIconStep
      rw [hstep]
    · refine ⟨fs.put featurePngPath
        (.png (featureText featureBase (featureFonts fs).1 (featureFonts fs).2.1
          (featureFonts fs).2.2)), ?_,
        featureText featureBase (featureFonts fs).1 (featureFonts fs).2.1
          (featureFonts fs).2.2, FS.readFile_put_self _ _ _, ?_⟩
      · unfold generate_feature_graphic
        rw [hstep]
        exact hwrite
      · rw [featureText_hasPaste, featureBase_hasPaste]
  · intro p hp
    have hex : fs.fileExists iconPngPath = true := by
      unfold FS.fileExists
      rw [hp]
      rfl
    have hopen : openImage fs iconPngPath = .ok p := by
      unfold openImage
      rw [hp]
    have hstep : featureIconStep fs featureBase =
        .ok (featureWithIcon featureBase p) := by
      unfold featureIconStep
      rw [if_pos hex, hopen]
    have hwrite : FS.writeFile fs featurePngPath
        (.png (featureText (featureWithIcon featureBase p) (featureFonts fs).1
          (featureFonts fs).2.1 (featureFonts fs).2.2)) =
        .ok (fs.put featurePngPath
          (.png (featureText (featureWithIcon featureBase p) (featureFonts fs).1
            (featureFonts fs).2.1 (featureFonts fs).2.2))) := by
      unfold FS.writeFile
      rw [if_pos (show featurePngPath.dir ∈ fs.dirs from hdir)]
    refine ⟨fs.put featurePngPath
      (.png (featureText (featureWithIcon featureBase p) (featureFonts fs).1
        (featureFonts fs).2.1 (featureFonts fs).2.2)), ?_,
      featureText (featureWithIcon featureBase p) (featureFonts fs).1
        (featureFonts fs).2.1 (featureFonts fs).2.2,
      FS.readFile_put_self _ _ _, ?_, rfl, rfl⟩
    · unfold generate_feature_graphic
      rw [hstep]
      exact hwrite
    · simp [featureText, featureWithIcon, Img.hasPasteOf, Img.draw]

/-- Witness for C6: one run without the icon file, one with it. -/
theorem claim_C6_witness :
    (assetsDir ∈ (⟨[], [assetsDir]⟩ : FS).dirs ∧
      FS.fileExists ⟨[], [assetsDir]⟩ iconPngPath = false ∧
      (generate_feature_graphic ⟨[], [assetsDir]⟩ =
          generate_feature_graphic_noIconStep ⟨[], [assetsDir]⟩ ∧
        ∃ fs', generate_feature_graphic ⟨[], [assetsDir]⟩ = .ok fs' ∧
          ∃ i, fs'.readFile featurePngPath = some (.png i) ∧
            i.hasPaste = false)) ∧
    (assetsDir ∈ (⟨[(iconPngPath, .png (Img.new "RGBA" 512 512 (rgba 0 0 0 0)))],
        [assetsDir]⟩ : FS).dirs ∧
      FS.readFile ⟨[(iconPngPath, .png (Img.new "RGBA" 512 512 (rgba 0 0 0 0)))],
          [assetsDir]⟩ iconPngPath =
        some (.png (Img.new "RGBA" 512 512 (rgba 0 0 0 0))) ∧
      ∃ fs', generate_feature_graphic
          ⟨[(iconPngPath, .png (Img.new "RGBA" 512 512 (rgba 0 0 0 0)))],
            [assetsDir]⟩ = .ok fs' ∧
        ∃ i, fs'.readFile featurePngPath = some (.png i) ∧
          i.hasPasteOf (((Img.new "RGBA" 512 512 (rgba 0 0 0 0)).convert
            "RGBA").resize 280 280 .lanczos) = true ∧
          (((Img.new "RGBA" 512 512 (rgba 0 0 0 0)).convert
            "RGBA").resize 280 280 .lanczos).width = 280 ∧
          (((Img.new "RGBA" 512 512 (rgba 0 0 0 0)).convert
            "RGBA").resize 280 280 .lanczos).height = 280) :=
  ⟨⟨by simp, rfl,
      (claim_C6_icon_optional ⟨[], [assetsDir]⟩ (by simp)).1 rfl⟩,
    ⟨by simp, rfl,
      (claim_C6_icon_optional _ (by simp)).2
        (Img.new "RGBA" 512 512 (rgba 0 0 0 0)) rfl⟩⟩

/-- The filesystem after one loop iteration of `generate_mipmaps.py`:
density directory created, both launcher files written. -/
def mipStepResult (img : Img) (fs : FS) (e : String × Nat) : FS :=
  ((fs.makedirs (mipmapDir e.1)).put ⟨mipmapDir e.1, "ic_launcher.png"⟩
      (.png (img.resize e.2 e.2 .lanczos))).put
    ⟨mipmapDir e.1, "ic_launcher_round.png"⟩ (.png (img.resize e.2 e.2 .lanczos))

theorem mipStep_ok (img : Img) (fs : FS) (e : String × Nat) :
    mipStep img fs e = .ok (mipStepResult img fs e) := by
  have hm : mipmapDir e.1 ∈ ((fs.makedirs (mipmapDir e.1)).put
      ⟨mipmapDir e.1, "ic_launcher.png"⟩
      (.png (img.resize e.2 e.2 .lanczos))).dirs :=
    fs.mem_makedirs_self (mipmapDir e.1)
  have h2 : ((fs.makedirs (mipmapDir e.1)).put ⟨mipmapDir e.1, "ic_launcher.png"⟩
      (.png (img.resize e.2 e.2 .lanczos))).writeFile
      ⟨mipmapDir e.1, "ic_launcher_round.png"⟩ (.png (img.resize e.2 e.2 .lanczos)) =
      .ok (mipStepResult img fs e) := by
    unfold FS.writeFile
    rw [if_pos hm]
    rfl
  simp only [mipStep]
  rw [FS.writeFile_after_makedirs]
  exact h2

theorem mipLoop_ok (img : Img) (l : List (String × Nat)) (fs : FS) :
    mipLoop img fs l = .ok (l.foldl (mipStepResult img) fs) := by
  induction l generalizing fs with
  | nil => rfl
  | cons e l ih =>
    unfold mipLoop
    rw [mipStep_ok]
    exact ih (mipStepResult img fs e)

/-- The filesystem after a successful run of `generate_mipmaps.py`. -/
def mipFinal (img : Img) (fs : FS) : FS := sizes.foldl (mipStepResult img) fs

theorem generate_mipmaps_ok (fs : FS) (p : Img)
    (h : fs.readFile iconPngPath = some (.png p)) :
    generate_mipmaps fs = .ok (mipFinal (p.convert "RGBA") fs) := by
  unfold generate_mipmaps openImage
  rw [h]
  exact mipLoop_ok (p.convert "RGBA") sizes fs

theorem FS.mem_dirs_makedirs_iff (fs : FS) (d e : String) :
    d ∈ (fs.makedirs e).dirs ↔ d = e ∨ d ∈ fs.dirs := by
  unfold FS.makedirs
  split
  next h =>
    constructor
    · exact Or.inr
    · rintro (rfl | hm)
      · exact h
      · exact hm
  next h => exact List.mem_cons

theorem mipStepResult_dirs_iff (img : Img) (fs : FS) (e : String × Nat) (d : String) :
    d ∈ (mipStepResult img fs e).dirs ↔ d = mipmapDir e.1 ∨ d ∈ fs.dirs :=
  fs.mem_dirs_makedirs_iff d (mipmapDir e.1)

theorem mipfold_dirs_iff (img : Img) (l : List (String × Nat)) (fs : FS) (d : String) :
    d ∈ (l.foldl (mipStepResult img) fs).dirs ↔
      (∃ e ∈ l, d = mipmapDir e.1) ∨ d ∈ fs.dirs := by
  induction l generalizing fs with
  | nil => simp
  | cons e l ih =>
    rw [List.foldl_cons, ih, mipStepResult_dirs_iff]
    simp only [List.mem_cons]
    constructor
    · rintro (⟨e', he', rfl⟩ | rfl | hm)
      · exact Or.inl ⟨e', Or.inr he', rfl⟩
      · exact Or.inl ⟨e, Or.inl rfl, rfl⟩
      · exact Or.inr hm
    · rintro (⟨e', he' | he', rfl⟩ | hm)
      · exact Or.inr (Or.inl (by rw [he']))
      · exact Or.inl ⟨e', he', rfl⟩
      · exact Or.inr (Or.inr hm)

theorem ne_of_dir_ne (q p : FPath) (h : q.dir ≠ p.dir) : q ≠ p :=
  fun he => h (by rw [he])

theorem mipStepResult_readFile_other (img : Img) (fs : FS) (e : String × Nat)
    (q : FPath) (hq : q.dir ≠ mipmapDir e.1) :
    (mipStepResult img fs e).readFile q = fs.readFile q := by
  unfold mipStepResult
  rw [FS.readFile_put_other _ _ _ _ (ne_of_dir_ne _ _ hq),
      FS.readFile_put_other _ _ _ _ (ne_of_dir_ne _ _ hq),
      FS.readFile_makedirs]

theorem mipStepResult_readFile_launcher (img : Img) (fs : FS) (e : String × Nat) :
    (mipStepResult img fs e).readFile ⟨mipmapDir e.1, "ic_launcher.png"⟩ =
      some (.png (img.resize e.2 e.2 .lanczos)) := by
  have hne : (⟨mipmapDir e.1, "ic_launcher.png"⟩ : FPath) ≠
      ⟨mipmapDir e.1, "ic_launcher_round.png"⟩ :=
    fun he =>
      (by decide : ("ic_launcher.png" : String) ≠ "ic_launcher_round.png")
        (congrArg FPath.name he)
  unfold mipStepResult
  rw [FS.readFile_put_other _ _ _ _ hne, FS.readFile_put_self]

theorem mipStepResult_readFile_round (img : Img) (fs : FS) (e : String × Nat) :
    (mipStepResult img fs e).readFile ⟨mipmapDir e.1, "ic_launcher_round.png"⟩ =
      some (.png (img.resize e.2 e.2 .lanczos)) := by
  unfold mipStepResult
  rw [FS.readFile_put_self]

theorem mipfold_readFile_other (img : Img) (l : List (String × Nat)) (q : FPath) :
    ∀ fs : FS, (∀ e ∈ l, q.dir ≠ mipmapDir e.1) →
      (l.foldl (mipStepResult img) fs).readFile q = fs.readFile q := by
  induction l with
  | nil => intro fs _; rfl
  | cons e l ih =>
    intro fs hq
    rw [List.foldl_cons,
      ih (mipStepResult img fs e) (fun e' he' => hq e' (List.mem_cons_of_mem e he')),
      mipStepResult_readFile_other _ _ _ _ (hq e (List.mem_cons_self e l))]

/-- C1: a successful run of the mipmap resizer over an existing source icon
writes, for each of the five densities, `ic_launcher.png` and
`ic_launcher_round.png` in that density's directory, both equal to the
LANCZOS-resized source at the density's fixed square size (48, 72, 96,
144, 192) — hence byte-identical per density under the deterministic PNG
encoding — creates exactly those five directories beyond the pre-existing
ones, and touches no file outside them. -/
theorem claim_C1_mipmap_outputs (fs : FS) (p : Img)
    (h : fs.readFile iconPngPath = some (.png p)) :
    ∃ fs', generate_mipmaps fs = .ok fs' ∧
      (∀ e ∈ sizes,
        fs'.readFile ⟨mipmapDir e.1, "ic_launcher.png"⟩ =
            some (.png ((p.convert "RGBA").resize e.2 e.2 .lanczos)) ∧
        fs'.readFile ⟨mipmapDir e.1, "ic_launcher_round.png"⟩ =
            some (.png ((p.convert "RGBA").resize e.2 e.2 .lanczos)) ∧
        ((p.convert "RGBA").resize e.2 e.2 .lanczos).width = e.2 ∧
        ((p.convert "RGBA").resize e.2 e.2 .lanczos).height = e.2 ∧
        mipmapDir e.1 ∈ fs'.dirs) ∧
      (∀ d ∈ fs'.dirs, d ∈ fs.dirs ∨ ∃ e ∈ sizes, d = mipmapDir e.1) ∧
      (∀ q : FPath, (∀ e ∈ sizes, q.dir ≠ mipmapDir e.1) →
        fs'.readFile q = fs.readFile q) := by
  refine ⟨mipFinal (p.convert "RGBA") fs, generate_mipmaps_ok fs p h, ?_, ?_, ?_⟩
  · intro e he
    simp only [sizes, List.mem_cons, List.not_mem_nil, or_false] at he
    rcases he with rfl | rfl | rfl | rfl | rfl
    · refine ⟨?_, ?_, rfl, rfl, ?_⟩
      · simp only [mipFinal, sizes, List.foldl_cons, List.foldl_nil]
        rw [mipStepResult_readFile_other _ _ _ _ (by decide),
            mipStepResult_readFile_other _ _ _ _ (by decide),
            mipStepResult_readFile_other _ _ _ _ (by decide),
            mipStepResult_readFile_other _ _ _ _ (by decide)]
        exact mipStepResult_readFile_launcher _ _ _
      · simp only [mipFinal, sizes, List.foldl_cons, List.foldl_nil]
        rw [mipStepResult_readFile_other _ _ _ _ (by decide),
            mipStepResult_readFile_other _ _ _ _ (by decide),
            mipStepResult_readFile_other _ _ _ _ (by decide),
            mipStepResult_readFile_other _ _ _ _ (by decide)]
        exact mipStepResult_readFile_round _ _ _
      · exact (mipfold_dirs_iff _ sizes fs _).mpr
          (Or.inl ⟨("mipmap-mdpi", 48), by simp [sizes], rfl⟩)
    · refine ⟨?_, ?_, rfl, rfl, ?_⟩
      · simp only [mipFinal, sizes, List.foldl_cons, List.foldl_nil]
        rw [mipStepResult_readFile_other _ _ _ _ (by decide),
            mipStepResult_readFile_other _ _ _ _ (by decide),
            mipStepResult_readFile_other _ _ _ _ (by decide)]
        exact mipStepResult_readFile_launcher _ _ _
      · simp only [mipFinal, sizes, List.foldl_cons, List.foldl_nil]
        rw [mipStepResult_readFile_other _ _ _ _ (by decide),
            mipStepResult_readFile_other _ _ _ _ (by decide),
            mipStepResult_readFile_other _ _ _ _ (by decide)]
        exact mipStepResult_readFile_round _ _ _
      · exact (mipfold_dirs_iff _ sizes fs _).mpr
          (Or.inl ⟨("mipmap-hdpi", 72), by simp [sizes], rfl⟩)
    · refine ⟨?_, ?_, rfl, rfl, ?_⟩
      · simp only [mipFinal, sizes, List.foldl_cons, List.foldl_nil]
        rw [mipStepResult_readFile_other _ _ _ _ (by decide),
            mipStepResult_readFile_other _ _ _ _ (by decide)]
        exact mipStepResult_readFile_launcher _ _ _
      · simp only [mipFinal, sizes, List.foldl_cons, List.foldl_nil]
        rw [mipStepResult_readFile_other _ _ _ _ (by decide),
            mipStepResult_readFile_other _ _ _ _ (by decide)]
        exact mipStepResult_readFile_round _ _ _
      · exact (mipfold_dirs_iff _ sizes fs _).mpr
          (Or.inl ⟨("mipmap-xhdpi", 96), by simp [sizes], rfl⟩)
    · refine ⟨?_, ?_, rfl, rfl, ?_⟩
      · simp only [mipFinal, sizes, List.foldl_cons, List.foldl_nil]
        rw [mipStepResult_readFile_other _ _ _ _ (by decide)]
        exact mipStepResult_readFile_launcher _ _ _
      · simp only [mipFinal, sizes, List.foldl_cons, List.foldl_nil]
        rw [mipStepResult_readFile_other _ _ _ _ (by decide)]
        exact mipStepResult_readFile_round _ _ _
      · exact (mipfold_dirs_iff _ sizes fs _).mpr
          (Or.inl ⟨("mipmap-xxhdpi", 144), by simp [sizes], rfl⟩)
    · refine ⟨?_, ?_, rfl, rfl, ?_⟩
      · simp only [mipFinal, sizes, List.foldl_cons, List.foldl_nil]
        exact mipStepResult_readFile_launcher _ _ _
      · simp only [mipFinal, sizes, List.foldl_cons, List.foldl_nil]
        exact mipStepResult_readFile_round _ _ _
      · exact (mipfold_dirs_iff _ sizes fs _).mpr
          (Or.inl ⟨("mipmap-xxxhdpi", 192), by simp [sizes], rfl⟩)
  · intro d hd
    simp only [mipFinal] at hd
    rw [mipfold_dirs_iff] at hd
    rcases hd with ⟨e, he, rfl⟩ | hd
    · exact Or.inr ⟨e, he, rfl⟩
    · exact Or.inl hd
  · intro q hq
    simp only [mipFinal]
    exact mipfold_readFile_other (p.convert "RGBA") sizes q fs hq

/-- A minimal concrete source icon for witnesses. -/
def testIcon : Img := Img.new "RGBA" 512 512 (rgba 0 0 0 0)

/-- A concrete filesystem holding the source icon in an assets directory. -/
def testFS : FS := ⟨[(iconPngPath, .png testIcon)], [assetsDir]⟩

/-- Witness for C1 at a concrete filesystem holding a source icon. -/
theorem claim_C1_witness :
    testFS.readFile iconPngPath = some (.png testIcon) ∧
    (∃ fs', generate_mipmaps testFS = .ok fs' ∧
      (∀ e ∈ sizes,
        fs'.readFile ⟨mipmapDir e.1, "ic_launcher.png"⟩ =
            some (.png ((testIcon.convert "RGBA").resize e.2 e.2 .lanczos)) ∧
        fs'.readFile ⟨mipmapDir e.1, "ic_launcher_round.png"⟩ =
            some (.png ((testIcon.convert "RGBA").resize e.2 e.2 .lanczos)) ∧
        ((testIcon.convert "RGBA").resize e.2 e.2 .lanczos).width = e.2 ∧
        ((testIcon.convert "RGBA").resize e.2 e.2 .lanczos).height = e.2 ∧
        mipmapDir e.1 ∈ fs'.dirs) ∧
      (∀ d ∈ fs'.dirs, d ∈ testFS.dirs ∨ ∃ e ∈ sizes, d = mipmapDir e.1) ∧
      (∀ q : FPath, (∀ e ∈ sizes, q.dir ≠ mipmapDir e.1) →
        fs'.readFile q = testFS.readFile q)) :=
  ⟨rfl, claim_C1_mipmap_outputs testFS testIcon rfl⟩
